import Mathlib

/-!
Verification development for the aaa-service infrastructure repository.

The repository declares AWS resources through the CDK: an IAM stack
(src/infrastructure/stacks/iam_stack.py), a database stack
(src/infrastructure/stacks/database_stack.py) and a container stack
(src/infrastructure/stacks/container_stack.py), composed by
src/infrastructure/app.py.  The code is a single-pass declarative
construction, so the shallow embedding below translates each stack
constructor into a Lean record value built from the same literals, in the
same order, keeping the source field and variable names.  Deploy-time
context lookups (node.try_get_context) become a lookup function
String to Option String, and the fallible role import
(iam.Role.from_role_arn, which raises when handed a missing ARN) becomes
an Except value, so that a missing context key aborts stack construction
exactly as the raised exception would.
-/

namespace AaaService

/-! ### Common resource model (aws_ec2, aws_iam, aws_rds, aws_ecr, aws_secretsmanager) -/

inductive SubnetType
  | PUBLIC
  | PRIVATE_WITH_EGRESS
  deriving DecidableEq

structure SubnetConfiguration where
  name : String
  subnet_type : SubnetType
  cidr_mask : Nat
  deriving DecidableEq

structure Vpc where
  id : String
  max_azs : Nat
  nat_gateways : Nat
  subnet_configuration : List SubnetConfiguration
  deriving DecidableEq

/-- The VPC is declared without an explicit CIDR, so it receives the CDK
default address block 10.0.0.0/16; vpc.vpc_cidr_block resolves to it. -/
def Vpc.vpc_cidr_block (_v : Vpc) : String := "10.0.0.0/16"

inductive Peer
  | ipv4 (cidr : String)
  deriving DecidableEq

inductive Port
  | tcp (port : Nat)
  deriving DecidableEq

structure IngressRule where
  peer : Peer
  port : Port
  description : String
  deriving DecidableEq

structure SecurityGroup where
  id : String
  vpc : Vpc
  description : String
  allow_all_outbound : Bool
  ingress_rules : List IngressRule
  deriving DecidableEq

structure SecretStringGenerator where
  secret_string_template : String
  generate_string_key : String
  exclude_characters : String
  deriving DecidableEq

structure Secret where
  id : String
  generate_secret_string : SecretStringGenerator
  deriving DecidableEq

inductive Effect
  | ALLOW
  | DENY
  deriving DecidableEq

structure PolicyStatement where
  effect : Effect
  actions : List String
  resources : List String
  deriving DecidableEq

inductive Principal
  | service (name : String)
  deriving DecidableEq

structure Role where
  id : String
  assumed_by : Principal
  description : String
  managed_policies : List String
  inline_statements : List PolicyStatement
  deriving DecidableEq

/-- A role imported with iam.Role.from_role_arn: it carries only the ARN
string it was resolved from, never the defining stack role object. -/
structure ImportedRole where
  id : String
  role_arn : String
  deriving DecidableEq

inductive RemovalPolicy
  | RETAIN
  | SNAPSHOT
  | DESTROY
  deriving DecidableEq

structure LifecycleRule where
  max_image_count : Nat
  description : String
  deriving DecidableEq

structure Repository where
  id : String
  repository_name : String
  removal_policy : RemovalPolicy
  image_scan_on_push : Bool
  lifecycle_rules : List LifecycleRule
  deriving DecidableEq

/-- The repository ARN token of an ECR repository (region fixed to
ap-south-1 by app.py; the account id is a deploy-time token). -/
def Repository.repository_arn (r : Repository) : String :=
  "arn:aws:ecr:ap-south-1:ACCOUNT:repository/" ++ r.repository_name

/-- The deploy-time context store consulted by node.try_get_context. -/
abbrev Context := String → Option String

/-- iam.Role.from_role_arn: importing a role from a context-supplied ARN.
When the context lookup returned nothing (the key is absent),
from_role_arn raises during construction; the embedding returns an error,
aborting the stack build with no resources produced. -/
def Role.from_role_arn (id : String) (role_arn : Option String) :
    Except String ImportedRole :=
  match role_arn with
  | none => Except.error ("missing role arn for " ++ id)
  | some a => Except.ok { id := id, role_arn := a }

end AaaService

namespace AaaService.ContainerStack

/-! ### ContainerStack (src/infrastructure/stacks/container_stack.py) -/

def aaa_service_repo : Repository :=
  { id := "AaaServiceRepository"
    repository_name := "aaa-service"
    removal_policy := RemovalPolicy.RETAIN
    image_scan_on_push := true
    lifecycle_rules := [{ max_image_count := 30
                          description := "Keep only the last 30 images" }] }

def spicedb_repo : Repository :=
  { id := "SpiceDBRepository"
    repository_name := "spicedb"
    removal_policy := RemovalPolicy.RETAIN
    image_scan_on_push := true
    lifecycle_rules := [{ max_image_count := 10
                          description := "Keep only the last 10 images" }] }

def aadhaar_validation_repo : Repository :=
  { id := "AadhaarValidationRepository"
    repository_name := "aadhaar-validation-service"
    removal_policy := RemovalPolicy.RETAIN
    image_scan_on_push := true
    lifecycle_rules := [{ max_image_count := 30
                          description := "Keep only the last 30 images" }] }

/-- The three repositories in declaration order. -/
def repositories : List Repository :=
  [aaa_service_repo, spicedb_repo, aadhaar_validation_repo]

/-- EcrAccessRole with the single pull policy statement added by
add_to_policy. -/
def ecr_access_role : Role :=
  { id := "EcrAccessRole"
    assumed_by := Principal.service "ecs-tasks.amazonaws.com"
    description := "Role for ECR access from ECS tasks"
    managed_policies := []
    inline_statements :=
      [{ effect := Effect.ALLOW
         actions := ["ecr:GetDownloadUrlForLayer",
                     "ecr:BatchGetImage",
                     "ecr:BatchCheckLayerAvailability",
                     "ecr:GetAuthorizationToken"]
         resources := [aaa_service_repo.repository_arn,
                       spicedb_repo.repository_arn,
                       aadhaar_validation_repo.repository_arn] }] }

end AaaService.ContainerStack
namespace AaaService.IamStack

/-! ### IamStack (src/infrastructure/stacks/iam_stack.py) -/

/-- The action list of the inline policy statement added to
db_access_role by add_to_policy, transcribed verbatim in source order
(105 entries, with the duplicates of the source). -/
def dbAccessPolicyActions : List String :=
  ["rds-db:connect",
   "rds:DescribeDBInstances",
   "rds:DescribeDBClusters",
   "rds:ModifyDBInstance",
   "rds:ModifyDBCluster",
   "rds:StartDBInstance",
   "rds:StopDBInstance",
   "rds:RebootDBInstance",
   "rds:CreateDBInstance",
   "rds:DeleteDBInstance",
   "rds:CreateDBCluster",
   "rds:DeleteDBCluster",
   "rds:RestoreDBInstanceFromDBSnapshot",
   "rds:RestoreDBClusterFromSnapshot",
   "rds:CreateDBSnapshot",
   "rds:DeleteDBSnapshot",
   "rds:CopyDBSnapshot",
   "rds:CopyDBClusterSnapshot",
   "rds:DescribeDBSnapshots",
   "rds:DescribeDBClusterSnapshots",
   "rds:ModifyDBSnapshotAttribute",
   "rds:ModifyDBClusterSnapshotAttribute",
   "rds:RestoreDBInstanceToPointInTime",
   "rds:RestoreDBClusterToPointInTime",
   "rds:DescribeDBEngineVersions",
   "rds:DescribeOrderableDBInstanceOptions",
   "rds:DescribeDBParameters",
   "rds:DescribeDBClusterParameters",
   "rds:ModifyDBParameterGroup",
   "rds:ModifyDBClusterParameterGroup",
   "rds:DescribeEvents",
   "rds:DescribeEventSubscriptions",
   "rds:CreateEventSubscription",
   "rds:DeleteEventSubscription",
   "rds:ModifyEventSubscription",
   "rds:AddTagsToResource",
   "rds:RemoveTagsFromResource",
   "rds:ListTagsForResource",
   "rds:DescribeDBLogFiles",
   "rds:DownloadDBLogFilePortion",
   "rds:DescribeDBInstances",
   "rds:DescribeDBClusters",
   "rds:DescribeDBEngineVersions",
   "rds:DescribeDBParameterGroups",
   "rds:DescribeDBClusterParameterGroups",
   "rds:DescribeDBParameters",
   "rds:DescribeDBClusterParameters",
   "rds:DescribeOptionGroups",
   "rds:DescribeDBSubnetGroups",
   "rds:DescribeEventSubscriptions",
   "rds:DescribeEvents",
   "rds:DescribeOrderableDBInstanceOptions",
   "rds:DescribePendingMaintenanceActions",
   "rds:DescribeReservedDBInstances",
   "rds:DescribeReservedDBInstancesOfferings",
   "rds:DescribeSourceRegions",
   "rds:DescribeValidDBInstanceModifications",
   "rds:DescribeValidDBClusterModifications",
   "rds:DescribeDBClusterSnapshotAttributes",
   "rds:DescribeDBSnapshotAttributes",
   "rds:DescribeDBClusterEndpoints",
   "rds:DescribeDBClusterParameterGroups",
   "rds:DescribeDBClusterParameters",
   "rds:DescribeDBClusterSnapshots",
   "rds:DescribeDBClusters",
   "rds:DescribeDBInstances",
   "rds:DescribeDBParameterGroups",
   "rds:DescribeDBParameters",
   "rds:DescribeDBSnapshots",
   "rds:DescribeDBSubnetGroups",
   "rds:DescribeEventCategories",
   "rds:DescribeEventSubscriptions",
   "rds:DescribeEvents",
   "rds:DescribeOptionGroups",
   "rds:DescribeOrderableDBInstanceOptions",
   "rds:DescribePendingMaintenanceActions",
   "rds:DescribeReservedDBInstances",
   "rds:DescribeReservedDBInstancesOfferings",
   "rds:DescribeSourceRegions",
   "rds:DescribeValidDBInstanceModifications",
   "rds:DescribeValidDBClusterModifications",
   "rds:ListTagsForResource",
   "rds:ModifyDBCluster",
   "rds:ModifyDBClusterParameterGroup",
   "rds:ModifyDBClusterSnapshotAttribute",
   "rds:ModifyDBInstance",
   "rds:ModifyDBParameterGroup",
   "rds:ModifyDBSnapshotAttribute",
   "rds:ModifyEventSubscription",
   "rds:PromoteReadReplica",
   "rds:PromoteReadReplicaDBCluster",
   "rds:PurchaseReservedDBInstancesOffering",
   "rds:RebootDBInstance",
   "rds:RemoveTagsFromResource",
   "rds:ResetDBClusterParameterGroup",
   "rds:ResetDBParameterGroup",
   "rds:RestoreDBClusterFromSnapshot",
   "rds:RestoreDBClusterToPointInTime",
   "rds:RestoreDBInstanceFromDBSnapshot",
   "rds:RestoreDBInstanceToPointInTime",
   "rds:RevokeDBSecurityGroupIngress",
   "rds:StartDBCluster",
   "rds:StartDBInstance",
   "rds:StopDBCluster",
   "rds:StopDBInstance"]

/-- DatabaseAccessRole: trust principal rds.amazonaws.com, two managed
policies, and the single broad inline statement with wildcard scope. -/
def db_access_role : Role :=
  { id := "DatabaseAccessRole"
    assumed_by := Principal.service "rds.amazonaws.com"
    description := "Role for database access and management"
    managed_policies := ["service-role/AmazonRDSEnhancedMonitoringRole",
                         "service-role/AmazonRDSDirectoryServiceAccess"]
    inline_statements :=
      [{ effect := Effect.ALLOW
         actions := dbAccessPolicyActions
         resources := ["*"] }] }

def monitoring_role : Role :=
  { id := "DatabaseMonitoringRole"
    assumed_by := Principal.service "monitoring.rds.amazonaws.com"
    description := "Role for database monitoring and metrics"
    managed_policies := ["service-role/AmazonRDSEnhancedMonitoringRole"]
    inline_statements := [] }

def backup_role : Role :=
  { id := "DatabaseBackupRole"
    assumed_by := Principal.service "backup.amazonaws.com"
    description := "Role for database backup operations"
    managed_policies := ["service-role/AWSBackupServiceRolePolicyForBackup"]
    inline_statements := [] }

end AaaService.IamStack

namespace AaaService.DatabaseStack

/-! ### DatabaseStack (src/infrastructure/stacks/database_stack.py) -/

def vpc : Vpc :=
  { id := "DatabaseVPC"
    max_azs := 2
    nat_gateways := 1
    subnet_configuration :=
      [{ name := "Public"
         subnet_type := SubnetType.PUBLIC
         cidr_mask := 24 },
       { name := "Private"
         subnet_type := SubnetType.PRIVATE_WITH_EGRESS
         cidr_mask := 24 }] }

/-- DatabaseSecurityGroup after the single add_ingress_rule call:
inbound PostgreSQL, TCP port 5432, source range the VPC own CIDR block. -/
def db_security_group : SecurityGroup :=
  { id := "DatabaseSecurityGroup"
    vpc := vpc
    description := "Security group for Aurora PostgreSQL"
    allow_all_outbound := true
    ingress_rules :=
      [{ peer := Peer.ipv4 vpc.vpc_cidr_block
         port := Port.tcp 5432
         description := "Allow PostgreSQL traffic from VPC" }] }

/-- DatabaseCredentials secret.  The Python template literal is the JSON
object with the single pair username, aaa_user; the exclude string is the
four characters double quote, at sign, slash, backslash. -/
def db_credentials : Secret :=
  { id := "DatabaseCredentials"
    generate_secret_string :=
      { secret_string_template := "\x7b\"username\": \"aaa_user\"\x7d"
        generate_string_key := "password"
        exclude_characters := "\"@/\\" } }

structure InstanceProps where
  vpc : Vpc
  vpc_subnets : SubnetType
  security_groups : List SecurityGroup
  instance_type : String
  monitoring_role : ImportedRole
  deriving DecidableEq

structure BackupProps where
  retention_days : Nat
  preferred_window : String
  deriving DecidableEq

structure DatabaseCluster where
  id : String
  engine : String
  engine_version : String
  credentials_secret : Secret
  instance_props : InstanceProps
  instances : Nat
  backup : BackupProps
  monitoring_interval_seconds : Nat
  parameter_group_name : String
  removal_policy : RemovalPolicy
  associated_roles : List ImportedRole
  deriving DecidableEq

/-- The DatabaseCluster declaration, as a function of the three imported
roles (db_access_role, monitoring_role, backup_role in that order). -/
def makeCluster (db_access_role monitoring_role backup_role : ImportedRole) :
    DatabaseCluster :=
  { id := "DatabaseCluster"
    engine := "aurora-postgresql"
    engine_version := "16.1"
    credentials_secret := db_credentials
    instance_props :=
      { vpc := vpc
        vpc_subnets := SubnetType.PRIVATE_WITH_EGRESS
        security_groups := [db_security_group]
        instance_type := "t3.medium"
        monitoring_role := monitoring_role }
    instances := 1
    backup := { retention_days := 7, preferred_window := "03:00-04:00" }
    monitoring_interval_seconds := 60
    parameter_group_name := "default.aurora-postgresql16"
    removal_policy := RemovalPolicy.SNAPSHOT
    associated_roles := [db_access_role, backup_role] }

/-- The fully constructed stack: the network, boundary and secret
declarations, the three imported roles and the one cluster. -/
structure Built where
  vpc : Vpc
  db_security_group : SecurityGroup
  db_credentials : Secret
  db_access_role : ImportedRole
  monitoring_role : ImportedRole
  backup_role : ImportedRole
  cluster : DatabaseCluster
  outputs : List String
  deriving DecidableEq

/-- The DatabaseStack constructor.  The three role imports each read the
deploy-time context and raise on a missing key; exception propagation in
the constructor is embedded as Except, so a missing key yields an error
and no Built value: none of the declarations of this stack reach the
provisioning engine, leaving no partial deployment. -/
def build (ctx : Context) : Except String Built :=
  match Role.from_role_arn "ImportedDatabaseAccessRole"
      (ctx "database_access_role_arn") with
  | Except.error e => Except.error e
  | Except.ok db_access_role =>
    match Role.from_role_arn "ImportedMonitoringRole"
        (ctx "monitoring_role_arn") with
    | Except.error e => Except.error e
    | Except.ok monitoring_role =>
      match Role.from_role_arn "ImportedBackupRole"
          (ctx "backup_role_arn") with
      | Except.error e => Except.error e
      | Except.ok backup_role =>
        Except.ok
          { vpc := vpc
            db_security_group := db_security_group
            db_credentials := db_credentials
            db_access_role := db_access_role
            monitoring_role := monitoring_role
            backup_role := backup_role
            cluster := makeCluster db_access_role monitoring_role backup_role
            outputs := ["ClusterEndpoint", "SecretARN"] }

/-- A concrete deploy-time context supplying all three role ARNs. -/
def ctxFull : Context := fun k =>
  if k = "database_access_role_arn" then
    some "arn:aws:iam::111111111111:role/access"
  else if k = "monitoring_role_arn" then
    some "arn:aws:iam::111111111111:role/monitoring"
  else if k = "backup_role_arn" then
    some "arn:aws:iam::111111111111:role/backup"
  else none

/-- The concrete deploy-time context with no keys at all. -/
def ctxEmpty : Context := fun _ => none

/-- The stack built under ctxFull. -/
def builtFull : Built :=
  { vpc := vpc
    db_security_group := db_security_group
    db_credentials := db_credentials
    db_access_role :=
      { id := "ImportedDatabaseAccessRole"
        role_arn := "arn:aws:iam::111111111111:role/access" }
    monitoring_role :=
      { id := "ImportedMonitoringRole"
        role_arn := "arn:aws:iam::111111111111:role/monitoring" }
    backup_role :=
      { id := "ImportedBackupRole"
        role_arn := "arn:aws:iam::111111111111:role/backup" }
    cluster :=
      makeCluster
        { id := "ImportedDatabaseAccessRole"
          role_arn := "arn:aws:iam::111111111111:role/access" }
        { id := "ImportedMonitoringRole"
          role_arn := "arn:aws:iam::111111111111:role/monitoring" }
        { id := "ImportedBackupRole"
          role_arn := "arn:aws:iam::111111111111:role/backup" }
    outputs := ["ClusterEndpoint", "SecretARN"] }

end AaaService.DatabaseStack

namespace AaaService

/-! ### Claims -/

/-- C1: the database security group has a single ingress rule, it admits
only TCP port 5432, its source range is exactly the VPC own CIDR block
(the CDK default 10.0.0.0/16), and no rule has source 0.0.0.0/0. -/
theorem c1_db_ingress_only_postgres_from_vpc :
    DatabaseStack.db_security_group.ingress_rules =
      [{ peer := Peer.ipv4 DatabaseStack.vpc.vpc_cidr_block
         port := Port.tcp 5432
         description := "Allow PostgreSQL traffic from VPC" }] ∧
    DatabaseStack.db_security_group.ingress_rules.length = 1 ∧
    DatabaseStack.vpc.vpc_cidr_block = "10.0.0.0/16" ∧
    (DatabaseStack.db_security_group.ingress_rules.all
      (fun r => !(r.peer == Peer.ipv4 "0.0.0.0/0"))) = true := by
  decide

/-- C2 counterexample: the excluded-character set of the generated secret
cannot coincide with any three-element character set, because the exclude
string of the source holds four distinct characters (double quote, at
sign, slash, backslash). -/
theorem c2_excluded_set_is_not_a_three_char_set :
    (∃ S : Finset Char, S.card = 3 ∧
        ∀ c, (c ∈ DatabaseStack.db_credentials.generate_secret_string.exclude_characters.toList
          ↔ c ∈ S)) = False := by
  apply eq_false
  rintro ⟨S, hcard, hiff⟩
  have hsub : ({'"', '@', '/', '\\'} : Finset Char) ⊆ S := by
    intro c hc
    apply (hiff c).1
    simp only [Finset.mem_insert, Finset.mem_singleton] at hc
    rcases hc with rfl | rfl | rfl | rfl <;> decide
  have hle : ({'"', '@', '/', '\\'} : Finset Char).card ≤ S.card :=
    Finset.card_le_card hsub
  have hc4 : ({'"', '@', '/', '\\'} : Finset Char).card = 4 := by decide
  omega

/-- C2 amended: the template field is exactly the JSON object binding
username to aaa_user, the generated field is the key password, and the
excluded-character set is exactly the four connection-string-quoting
characters double quote, at sign, slash and backslash (four, not
three). -/
theorem c2_secret_generator_fields :
    DatabaseStack.db_credentials.generate_secret_string =
      { secret_string_template := "\x7b\"username\": \"aaa_user\"\x7d"
        generate_string_key := "password"
        exclude_characters := "\"@/\\" } ∧
    DatabaseStack.db_credentials.generate_secret_string.exclude_characters.toList =
      ['"', '@', '/', '\\'] ∧
    DatabaseStack.db_credentials.generate_secret_string.exclude_characters.toList.dedup.length
      = 4 := by
  decide

/-- C3: the database cluster declaration carries removal policy SNAPSHOT,
whatever the three imported roles resolve to, so deleting the stack takes
a final snapshot instead of destroying the data. -/
theorem c3_cluster_removal_policy_snapshot
    (dar mr br : ImportedRole) :
    (DatabaseStack.makeCluster dar mr br).removal_policy =
      RemovalPolicy.SNAPSHOT := rfl

/-- C3 witness at concrete imported roles. -/
theorem c3_cluster_removal_policy_snapshot_witness :
    (DatabaseStack.makeCluster
      { id := "a", role_arn := "b" }
      { id := "c", role_arn := "d" }
      { id := "e", role_arn := "f" }).removal_policy = RemovalPolicy.SNAPSHOT :=
  c3_cluster_removal_policy_snapshot
    { id := "a", role_arn := "b" }
    { id := "c", role_arn := "d" }
    { id := "e", role_arn := "f" }

/-- C4: the pull-role policy has one statement whose resource list is
exactly the three repository ARNs, of length 3, with no wildcard entry. -/
theorem c4_pull_role_resources_exactly_three_repo_arns :
    (ContainerStack.ecr_access_role.inline_statements.map
      (fun s => s.resources)) =
      [[ContainerStack.aaa_service_repo.repository_arn,
        ContainerStack.spicedb_repo.repository_arn,
        ContainerStack.aadhaar_validation_repo.repository_arn]] ∧
    (ContainerStack.ecr_access_role.inline_statements.map
      (fun s => s.resources.length)) = [3] ∧
    (ContainerStack.ecr_access_role.inline_statements.all
      (fun s => !(s.resources.contains "*"))) = true := by
  decide

/-- C5: all three repositories enable scan-on-push and carry the strictly
positive retention caps 30, 10 and 30 in declaration order. -/
theorem c5_repos_scan_on_push_and_caps :
    (ContainerStack.repositories.map (fun r => r.image_scan_on_push)) =
      [true, true, true] ∧
    (ContainerStack.repositories.map
      (fun r => r.lifecycle_rules.map (fun l => l.max_image_count))) =
      [[30], [10], [30]] ∧
    (ContainerStack.repositories.all
      (fun r => r.lifecycle_rules.all
        (fun l => decide (0 < l.max_image_count)))) = true := by
  decide

/-- C9: all three repositories are declared with removal policy RETAIN, so
deleting the container stack leaves the repositories in place. -/
theorem c9_repos_removal_policy_retain :
    (ContainerStack.repositories.map (fun r => r.removal_policy)) =
      [RemovalPolicy.RETAIN, RemovalPolicy.RETAIN, RemovalPolicy.RETAIN] := by
  decide

/-- C10: the pull-role policy grants exactly the four actions layer
download, image batch-get, layer-availability check and auth-token
retrieval, and no push, write or delete ECR action appears. -/
theorem c10_pull_role_actions_exactly_four_read_only :
    (ContainerStack.ecr_access_role.inline_statements.map
      (fun s => s.actions)) =
      [["ecr:GetDownloadUrlForLayer", "ecr:BatchGetImage",
        "ecr:BatchCheckLayerAvailability", "ecr:GetAuthorizationToken"]] ∧
    (ContainerStack.ecr_access_role.inline_statements.map
      (fun s => s.actions.length)) = [4] ∧
    (ContainerStack.ecr_access_role.inline_statements.all (fun s =>
      (["ecr:PutImage", "ecr:InitiateLayerUpload", "ecr:UploadLayerPart",
        "ecr:CompleteLayerUpload", "ecr:CreateRepository",
        "ecr:BatchDeleteImage", "ecr:DeleteRepository",
        "ecr:DeleteRepositoryPolicy", "ecr:DeleteLifecyclePolicy",
        "ecr:PutLifecyclePolicy", "ecr:SetRepositoryPolicy",
        "ecr:PutImageScanningConfiguration", "ecr:PutImageTagMutability"].all
        (fun w => !(s.actions.contains w))))) = true := by
  decide

/-- C8 counterexample: the inline action list of the database-access role
grants rds:DescribeDBInstances three times, so the list does not contain
each granted action exactly once. -/
theorem c8_action_granted_three_times :
    IamStack.dbAccessPolicyActions.count "rds:DescribeDBInstances" = 3 := by
  decide

set_option maxRecDepth 40000 in
/-- C8 amended: the database-access role has a single inline statement,
ALLOW with the wildcard resource list, whose action list spans lifecycle,
snapshot, parameter-group and describe operations; each granted action
appears at least once but the 105-entry list holds only 62 distinct
actions, so it is not duplicate-free. -/
theorem c8_db_access_policy_wildcard_and_spanning :
    (IamStack.db_access_role.inline_statements.map (fun s => s.resources)) =
      [["*"]] ∧
    (IamStack.db_access_role.inline_statements.map (fun s => s.effect)) =
      [Effect.ALLOW] ∧
    (IamStack.db_access_role.inline_statements.map (fun s => s.actions)) =
      [IamStack.dbAccessPolicyActions] ∧
    "rds:CreateDBCluster" ∈ IamStack.dbAccessPolicyActions ∧
    "rds:DeleteDBInstance" ∈ IamStack.dbAccessPolicyActions ∧
    "rds:CreateDBSnapshot" ∈ IamStack.dbAccessPolicyActions ∧
    "rds:ModifyDBParameterGroup" ∈ IamStack.dbAccessPolicyActions ∧
    "rds:DescribeDBClusters" ∈ IamStack.dbAccessPolicyActions ∧
    IamStack.dbAccessPolicyActions.length = 105 ∧
    IamStack.dbAccessPolicyActions.dedup.length = 62 := by
  decide

/-- C6: whenever the database stack builds successfully, it declares one
cluster with exactly 1 instance, placed in the private subnet tier of the
two-AZ, one-NAT network, attached to the declared security group, using
the generated secret as credentials, with 7-day backup retention, the
fixed daily window 03:00-04:00, and the imported access and backup roles
as its associated roles. -/
theorem c6_cluster_shape (ctx : Context) (s : DatabaseStack.Built)
    (h : DatabaseStack.build ctx = Except.ok s) :
    s.vpc.max_azs = 2 ∧
    s.vpc.nat_gateways = 1 ∧
    s.cluster.instances = 1 ∧
    s.cluster.instance_props.vpc_subnets = SubnetType.PRIVATE_WITH_EGRESS ∧
    s.cluster.instance_props.security_groups =
      [DatabaseStack.db_security_group] ∧
    s.cluster.credentials_secret = DatabaseStack.db_credentials ∧
    s.cluster.backup.retention_days = 7 ∧
    s.cluster.backup.preferred_window = "03:00-04:00" ∧
    s.cluster.associated_roles = [s.db_access_role, s.backup_role] := by
  cases hA : ctx "database_access_role_arn" with
  | none =>
      simp [DatabaseStack.build, Role.from_role_arn, hA] at h
  | some a =>
    cases hM : ctx "monitoring_role_arn" with
    | none =>
        simp [DatabaseStack.build, Role.from_role_arn, hA, hM] at h
    | some m =>
      cases hB : ctx "backup_role_arn" with
      | none =>
          simp [DatabaseStack.build, Role.from_role_arn, hA, hM, hB] at h
      | some b =>
          simp [DatabaseStack.build, Role.from_role_arn, hA, hM, hB] at h
          subst h
          exact ⟨rfl, rfl, rfl, rfl, rfl, rfl, rfl, rfl, rfl⟩

/-- C6 witness: the stack built under the concrete full context. -/
theorem c6_cluster_shape_witness :
    DatabaseStack.build DatabaseStack.ctxFull =
      Except.ok DatabaseStack.builtFull ∧
    DatabaseStack.builtFull.cluster.instances = 1 ∧
    DatabaseStack.builtFull.cluster.backup.retention_days = 7 := by
  have h := c6_cluster_shape DatabaseStack.ctxFull DatabaseStack.builtFull rfl
  exact ⟨rfl, h.2.2.1, h.2.2.2.2.2.2.1⟩

/-- C7: every cross-stack role reference of the database stack is
resolved from the deploy-time context by ARN string (each imported role
ARN equals the context value, and the cluster references exactly those
imported roles); if any of the three keys is absent, build returns an
error and produces no Built value, so no declaration of the stack reaches
the provisioning engine and no partial deployment occurs. -/
theorem c7_role_resolution_fail_closed (ctx : Context) :
    ((ctx "database_access_role_arn" = none ∨
      ctx "monitoring_role_arn" = none ∨
      ctx "backup_role_arn" = none) →
        ∃ e, DatabaseStack.build ctx = Except.error e) ∧
    (∀ s : DatabaseStack.Built, DatabaseStack.build ctx = Except.ok s →
      ctx "database_access_role_arn" = some s.db_access_role.role_arn ∧
      ctx "monitoring_role_arn" = some s.monitoring_role.role_arn ∧
      ctx "backup_role_arn" = some s.backup_role.role_arn ∧
      s.cluster.associated_roles = [s.db_access_role, s.backup_role] ∧
      s.cluster.instance_props.monitoring_role = s.monitoring_role) := by
  cases hA : ctx "database_access_role_arn" with
  | none =>
      refine ⟨fun _ => ⟨"missing role arn for " ++ "ImportedDatabaseAccessRole", ?_⟩,
        fun s hs => ?_⟩
      · simp [DatabaseStack.build, Role.from_role_arn, hA]
      · simp [DatabaseStack.build, Role.from_role_arn, hA] at hs
  | some a =>
    cases hM : ctx "monitoring_role_arn" with
    | none =>
        refine ⟨fun _ => ⟨"missing role arn for " ++ "ImportedMonitoringRole", ?_⟩,
          fun s hs => ?_⟩
        · simp [DatabaseStack.build, Role.from_role_arn, hA, hM]
        · simp [DatabaseStack.build, Role.from_role_arn, hA, hM] at hs
    | some m =>
      cases hB : ctx "backup_role_arn" with
      | none =>
          refine ⟨fun _ => ⟨"missing role arn for " ++ "ImportedBackupRole", ?_⟩,
            fun s hs => ?_⟩
          · simp [DatabaseStack.build, Role.from_role_arn, hA, hM, hB]
          · simp [DatabaseStack.build, Role.from_role_arn, hA, hM, hB] at hs
      | some b =>
          constructor
          · intro habs
            rcases habs with habs | habs | habs
            · simp [hA] at habs
            · simp [hM] at habs
            · simp [hB] at habs
          · intro s hs
            simp [DatabaseStack.build, Role.from_role_arn, hA, hM, hB] at hs
            subst hs
            exact ⟨rfl, rfl, rfl, rfl, rfl⟩

/-- C7 witness: under the empty context the build fails with an error and
builds nothing; under the full context the imported access-role ARN is
exactly the context value. -/
theorem c7_role_resolution_fail_closed_witness :
    (∃ e, DatabaseStack.build DatabaseStack.ctxEmpty = Except.error e) ∧
    DatabaseStack.ctxFull "database_access_role_arn" =
      some DatabaseStack.builtFull.db_access_role.role_arn :=
  ⟨(c7_role_resolution_fail_closed DatabaseStack.ctxEmpty).1 (Or.inl rfl),
   ((c7_role_resolution_fail_closed DatabaseStack.ctxFull).2
      DatabaseStack.builtFull rfl).1⟩

end AaaService
